import Mathlib

/-!
Verification of the hydrate-sql-server utility: a shallow embedding of
`db/load_csv.py`, `db/init_schema.py` and `src/database.py`.

Modelling conventions:
* A CSV file is its header row plus the raw string cells of each data row.
* `pd.read_csv` cell handling is embedded by `parseCell`: a raw cell whose
  text is one of pandas' default NA sentinels (the empty string included)
  becomes a missing value (`none`); every other cell is kept as a string.
* Numeric values are rationals (`ℚ`); `parseNum` embeds Python numeric-string
  parsing (optional sign, decimal digits with optional fraction, optional
  exponent).  The float special forms `inf`/`nan` are out of scope of the
  claims and parse to `none`.
* Database connections and the pyodbc driver are an oracle (`Driver`):
  whether `connect` and `cursor.execute` raise, and what a fetch returns.
  Each operation reports, besides its result, whether a connection it opened
  was left unclosed (`connLeaked`) and whether it committed.
* Timestamps are abstract (`ℕ`); `prepare_products_data` receives the two
  `datetime.now()` values as parameters.
-/

namespace Hydrate

/-- Pandas' default NA sentinel strings: a raw CSV cell equal to one of these
is read as a missing value by `pd.read_csv`. -/
def naValues : List String :=
  ["", "#N/A", "#N/A N/A", "#NA", "-1.#IND", "-1.#QNAN", "-NaN", "-nan",
   "1.#IND", "1.#QNAN", "<NA>", "N/A", "NA", "NULL", "NaN", "None",
   "n/a", "nan", "null"]

/-- Reading of one raw CSV cell by `pd.read_csv`: NA sentinels (including the
empty string) become missing, everything else stays as its text. -/
def parseCell (raw : String) : Option String :=
  if raw ∈ naValues then none else some raw

/-- A CSV file: header row and raw data rows. -/
structure Csv where
  headers : List String
  rows : List (List String)
deriving DecidableEq

/-- A pandas DataFrame as produced by `pd.read_csv`: named columns, and per
row one optional cell per column (`none` = NaN). -/
structure DataFrame where
  headers : List String
  rows : List (List (Option String))
deriving DecidableEq

/-- Embedding of `pd.read_csv`: apply NA handling cell-wise. -/
def readCsv (csv : Csv) : DataFrame :=
  ⟨csv.headers, csv.rows.map (fun r => r.map parseCell)⟩

/-- Look up the cell of row `r` under column `c` (rows shorter than the
header list read as missing, as pandas pads with NaN). -/
def getCell (df : DataFrame) (r : List (Option String)) (c : String) : Option String :=
  match df.headers.findIdx? (fun h => h == c) with
  | none => none
  | some i => (r.get? i).getD none

/-- Digits to a natural number. -/
def digitsToNat (ds : List Char) : ℕ :=
  ds.foldl (fun n c => 10 * n + (c.toNat - 48)) 0

/-- Parse an unsigned decimal mantissa (`12`, `12.5`, `.5`, `12.`), returning
its value and the unconsumed characters. -/
def parseMantissa (cs : List Char) : Option (ℚ × List Char) :=
  let (ip, r1) := cs.span Char.isDigit
  match r1 with
  | '.' :: r2 =>
    let (fp, r3) := r2.span Char.isDigit
    if ip = [] ∧ fp = [] then none
    else some ((digitsToNat ip : ℚ) + (digitsToNat fp : ℚ) / (10 : ℚ) ^ fp.length, r3)
  | _ => if ip = [] then none else some ((digitsToNat ip : ℚ), r1)

/-- Parse an optional exponent suffix (`e5`, `E-3`, ...); the whole rest of
the string must be consumed. -/
def parseExp : List Char → Option ℤ
  | [] => some 0
  | c :: rest =>
    if c = 'e' ∨ c = 'E' then
      match rest with
      | '+' :: ds =>
        if ds ≠ [] ∧ ds.all Char.isDigit then some (digitsToNat ds : ℤ) else none
      | '-' :: ds =>
        if ds ≠ [] ∧ ds.all Char.isDigit then some (-(digitsToNat ds : ℤ)) else none
      | ds =>
        if ds ≠ [] ∧ ds.all Char.isDigit then some (digitsToNat ds : ℤ) else none
    else none

/-- Strip leading and trailing whitespace from a character list (the effect
of Python `str.strip()`). -/
def trimChars (cs : List Char) : List Char :=
  ((cs.dropWhile Char.isWhitespace).reverse.dropWhile Char.isWhitespace).reverse

/-- Whether `p` is a prefix of `s`, over character lists. -/
def listStartsWith (s p : List Char) : Bool :=
  s.take p.length == p

/-- Embedding of Python numeric-string parsing as used by `pd.to_numeric`:
surrounding whitespace stripped, optional sign, decimal mantissa, optional
exponent.  Unparsable strings give `none` (which `errors='coerce'` turns
into NaN). -/
def parseNum (s : String) : Option ℚ :=
  let cs := trimChars s.data
  let (sgn, body) : ℚ × List Char :=
    match cs with
    | '+' :: rest => (1, rest)
    | '-' :: rest => (-1, rest)
    | _ => (1, cs)
  match parseMantissa body with
  | none => none
  | some (m, rest) =>
    match parseExp rest with
    | none => none
    | some e => some (sgn * m * (10 : ℚ) ^ e)

/-- Truncation toward zero, the effect of `.astype(int)` on a float. -/
def truncInt (q : ℚ) : ℤ := q.num.tdiv q.den

/-- The five target columns of the products schema. -/
inductive Target where
  | name
  | description
  | price
  | category
  | stock_quantity
deriving DecidableEq

/-- The `column_mapping` dict of `prepare_products_data`: the ordered synonym
list accepted for each target column. -/
def synonyms : Target → List String
  | .name => ["name", "product_name", "title", "product"]
  | .description => ["description", "desc", "product_description"]
  | .price => ["price", "cost", "amount", "value"]
  | .category => ["category", "cat", "type", "product_category"]
  | .stock_quantity => ["stock_quantity", "stock", "quantity", "qty", "inventory"]

/-- A cell of the intermediate `mapped_df`: missing (NaN), a string read from
the CSV, or a numeric scalar default. -/
inductive CellVal where
  | na
  | s (v : String)
  | num (q : ℚ)
  | int (z : ℤ)
deriving DecidableEq

/-- The default written into `mapped_df` when no synonym column is found:
`0.0` for price, `0` for stock_quantity, `''` otherwise. -/
def defaultFor : Target → CellVal
  | .price => .num 0
  | .stock_quantity => .int 0
  | _ => .s ""

/-- Lift an optional string cell into a `mapped_df` cell. -/
def cellOfOpt : Option String → CellVal
  | none => .na
  | some v => .s v

/-- The `for col_name in possible_names: if col_name in df.columns: ... break`
loop: the first synonym (in priority order) that is a column of `df`
(case-sensitive string equality). -/
def resolveCol (t : Target) (headers : List String) : Option String :=
  (synonyms t).find? (fun s => headers.contains s)

/-- The value target column `t` receives from row `r` of `df` in `mapped_df`:
the matching source cell when some synonym resolves, the default otherwise. -/
def mappedCell (df : DataFrame) (r : List (Option String)) (t : Target) : CellVal :=
  match resolveCol t df.headers with
  | some c => cellOfOpt (getCell df r c)
  | none => defaultFor t

/-- Cleaning of the price column:
`pd.to_numeric(col, errors='coerce').fillna(0.0)`. -/
def cleanPrice : CellVal → ℚ
  | .na => 0
  | .s v => (parseNum v).getD 0
  | .num q => q
  | .int z => (z : ℚ)

/-- Cleaning of the stock column:
`pd.to_numeric(col, errors='coerce').fillna(0).astype(int)`. -/
def cleanStock : CellVal → ℤ
  | .na => 0
  | .s v =>
    match parseNum v with
    | some q => truncInt q
    | none => 0
  | .num q => truncInt q
  | .int z => z

/-- The inserted value of a string-typed column (`name`, `description`,
`category`): missing stays missing, strings pass through.  Numeric cells
never occur for these targets (their default is `''`). -/
def strVal : CellVal → Option String
  | .na => none
  | .s v => some v
  | .num _ => none
  | .int _ => none

/-- One row of `mapped_df` after column mapping and numeric cleaning, before
the name-based row drop. -/
structure RawMapped where
  name : Option String
  description : Option String
  price : ℚ
  category : Option String
  stock_quantity : ℤ
deriving DecidableEq

/-- Build a `mapped_df` row from a source row. -/
def mapRow (df : DataFrame) (r : List (Option String)) : RawMapped :=
  { name := strVal (mappedCell df r .name)
    description := strVal (mappedCell df r .description)
    price := cleanPrice (mappedCell df r .price)
    category := strVal (mappedCell df r .category)
    stock_quantity := cleanStock (mappedCell df r .stock_quantity) }

/-- A row as passed to the insert loop of `load_csv_to_products`. -/
structure PreparedRow where
  name : String
  description : Option String
  price : ℚ
  category : Option String
  stock_quantity : ℤ
  created_at : ℕ
  updated_at : ℕ
deriving DecidableEq

/-- Embedding of `prepare_products_data`.  When no name synonym resolves, the
first column written into the fresh `mapped_df` is the scalar default `''`,
which pins the frame's index to zero rows, so `mapped_df['name'].isna().all()`
is vacuously true and the function returns an empty frame; this branch is the
`none` case.  Otherwise the frame has one row per source row; if every mapped
name is NaN the function returns an empty frame (`isna().all()`), and
otherwise `dropna(subset=['name'])` keeps exactly the rows whose name is
present, and the two `datetime.now()` timestamps are attached. -/
def prepare_products_data (df : DataFrame) (now₁ now₂ : ℕ) : List PreparedRow :=
  match resolveCol .name df.headers with
  | none => []
  | some _ =>
    let mapped := df.rows.map (mapRow df)
    if mapped.all (fun m => m.name.isNone) then []
    else
      mapped.filterMap (fun m =>
        m.name.map (fun nm =>
          { name := nm
            description := m.description
            price := m.price
            category := m.category
            stock_quantity := m.stock_quantity
            created_at := now₁
            updated_at := now₂ }))

/-- A product row as stored in the `products` table (identity column and
column defaults elided; the seed statement supplies every modelled field). -/
structure Product where
  name : String
  description : String
  price : ℚ
  category : String
  stock_quantity : ℤ
deriving DecidableEq

/-- The five fixed rows of the seed `INSERT` in `create_sample_data`. -/
def sampleRows : List Product :=
  [⟨"Sample Product 1", "This is a sample product for testing", 29.99, "Electronics", 100⟩,
   ⟨"Sample Product 2", "Another sample product", 49.99, "Electronics", 50⟩,
   ⟨"Sample Product 3", "A third sample product", 19.99, "Books", 200⟩,
   ⟨"Sample Product 4", "Yet another sample", 99.99, "Home & Garden", 25⟩,
   ⟨"Sample Product 5", "The last sample product", 15.99, "Books", 150⟩]

/-- Effect of the seed statement of `create_sample_data` on a table state:
`IF NOT EXISTS (SELECT * FROM products WHERE name = 'Sample Product 1')`
guards the whole five-row `INSERT`, so the batch is appended exactly when no
row named `Sample Product 1` is present. -/
def create_sample_data (db : List Product) : List Product :=
  if db.any (fun p => p.name == "Sample Product 1") then db else db ++ sampleRows

/-- Number of rows of the table bearing a given name. -/
def countName (n : String) (db : List Product) : ℕ :=
  (db.filter (fun p => p.name == n)).length

/-- Oracle for one pyodbc connection: whether `pyodbc.connect` raises, whether
`cursor.execute` raises, and what a fetch returns. -/
structure Driver where
  connectError : Option String
  executeError : Option String
  resultCols : List String
  resultRows : List (List String)
deriving DecidableEq

/-- Errors visible to callers of the connection manager.  The code only ever
re-raises the raw `pyodbc.Error`; `queryExecutionError` is modelled from the
spec's error taxonomy (a wrapper carrying operation context) and exists so
that the two propagation policies can be compared. -/
inductive PyError where
  | pyodbcError (msg : String)
  | queryExecutionError (ctx : String) (msg : String)
deriving DecidableEq

/-- Result of a successful `execute_query_pyodbc`: a DataFrame for reads,
`True` otherwise. -/
inductive QueryResult where
  | table (cols : List String) (rows : List (List String))
  | success
deriving DecidableEq

/-- The read test of the connection manager:
`query.strip().upper().startswith('SELECT')`. -/
def isSelect (q : String) : Bool :=
  listStartsWith ((trimChars q.data).map Char.toUpper) "SELECT".data

deriving instance DecidableEq for Except

/-- Observable outcome of one `execute_query_pyodbc` call: the returned value
or propagated error, whether a connection it opened was left unclosed, and
whether it committed. -/
structure ExecOutcome where
  result : Except PyError QueryResult
  connLeaked : Bool
  committed : Bool
deriving DecidableEq

/-- Embedding of `execute_query_pyodbc`.  A failing `pyodbc.connect` opens no
connection and the raised error is logged and re-raised.  A failing
`cursor.execute` hits the `except pyodbc.Error` clause, which logs and
re-raises the same error without closing the already-open connection.  On
success the connection is closed; non-`SELECT` statements commit first. -/
def execute_query_pyodbc (q : String) (d : Driver) : ExecOutcome :=
  match d.connectError with
  | some e => ⟨.error (.pyodbcError e), false, false⟩
  | none =>
    match d.executeError with
    | some e => ⟨.error (.pyodbcError e), true, false⟩
    | none =>
      if isSelect q then ⟨.ok (.table d.resultCols d.resultRows), false, false⟩
      else ⟨.ok .success, false, true⟩

/-- Whether an outcome is a propagated error wrapped as the spec's
`QueryExecutionError`. -/
def isWrapped : Except PyError QueryResult → Bool
  | .error (.queryExecutionError _ _) => true
  | _ => false

/-- Whether an `Except` value is a success. -/
def isOkB {ε α : Type} : Except ε α → Bool
  | .ok _ => true
  | .error _ => false

/-- The DDL text sent by `create_table_if_not_exists`. -/
def create_table_sql : String :=
  "\n    IF NOT EXISTS (SELECT * FROM sysobjects WHERE name='products' AND xtype='U')\n    CREATE TABLE products (\n        id INT IDENTITY(1,1) PRIMARY KEY,\n        name NVARCHAR(255) NOT NULL,\n        description NVARCHAR(MAX),\n        price DECIMAL(10,2) NOT NULL,\n        category NVARCHAR(100),\n        stock_quantity INT DEFAULT 0,\n        created_at DATETIME2 DEFAULT GETDATE(),\n        updated_at DATETIME2 DEFAULT GETDATE()\n    )\n    "

/-- Embedding of `create_table_if_not_exists`: one `execute_query_pyodbc`
call on the DDL text (a failure is logged and re-raised to the caller). -/
def create_table_if_not_exists (d : Driver) : ExecOutcome :=
  execute_query_pyodbc create_table_sql d

/-- Oracle for one `load_csv_to_products` run: driver behaviour of the
`create_table_if_not_exists` call, whether the loader's own
`get_pyodbc_connection` raises, and the first insert index (if any) at which
`cursor.execute` raises. -/
structure LoadDriver where
  ctDriver : Driver
  connectError : Option String
  insertErrorAt : Option ℕ
deriving DecidableEq

/-- Observable outcome of one `load_csv_to_products` call: the returned
boolean, whether a connection opened during the call was left unclosed, and
the prepared rows passed to `cursor.execute` (in order, up to and including a
failing one). -/
structure LoadOutcome where
  success : Bool
  connLeaked : Bool
  rowsInserted : List PreparedRow
deriving DecidableEq

/-- Embedding of `load_csv_to_products`.  The whole body sits in a
`try/except Exception` that returns `False`, so no exception escapes.  After
reading and preparing the data: an empty preparation returns `False`; a
failure of the table-creation call is re-raised and caught, returning
`False`; a failure of `get_pyodbc_connection` likewise (no connection was
opened); a `cursor.execute` failure at row `i` aborts the loop with rows
`0..i` already passed to the cursor, the open connection never closed; if
every insert succeeds the connection commits and is closed. -/
def load_csv_to_products (csv : Csv) (now₁ now₂ : ℕ) (d : LoadDriver) : LoadOutcome :=
  let rows := prepare_products_data (readCsv csv) now₁ now₂
  if rows.isEmpty then ⟨false, false, []⟩
  else
    let ct := create_table_if_not_exists d.ctDriver
    match ct.result with
    | .error _ => ⟨false, ct.connLeaked, []⟩
    | .ok _ =>
      match d.connectError with
      | some _ => ⟨false, ct.connLeaked, []⟩
      | none =>
        match d.insertErrorAt with
        | some i =>
          if i < rows.length then ⟨false, true, rows.take (i + 1)⟩
          else ⟨true, ct.connLeaked, rows⟩
        | none => ⟨true, ct.connLeaked, rows⟩

/-- The `success_count` accumulation of `load_all_csv_files`: one pass over
the discovered files in order, incrementing on success. -/
def successCount {α : Type} (files : List α) (loadFile : α → Bool) : ℕ :=
  files.foldl (fun n f => if loadFile f then n + 1 else n) 0

/-- Embedding of `load_all_csv_files` over the discovered file list, with the
per-file work abstracted as `loadFile`: an empty list returns `False`
immediately; otherwise every file is processed and the run succeeds exactly
when the success count equals the total. -/
def load_all_csv_files {α : Type} (files : List α) (loadFile : α → Bool) : Bool :=
  if files.isEmpty then false
  else successCount files loadFile == files.length

/-- Concrete inputs used by the witnesses and counterexamples. -/
def widgetCsv : Csv := ⟨["product_name", "cost", "qty"], [["Widget", "12.50", "abc"]]⟩

/-- A CSV none of whose columns is a synonym of `name`. -/
def noNameCsv : Csv := ⟨["foo", "bar"], [["a", "b"], ["c", "d"]]⟩

/-- A driver on which every operation succeeds. -/
def okDriver : Driver := ⟨none, none, [], []⟩

/-- A driver whose `cursor.execute` raises. -/
def failDriver : Driver := ⟨none, some "constraint violation", [], []⟩

/-- A load oracle on which every operation succeeds. -/
def okLoadDriver : LoadDriver := ⟨okDriver, none, none⟩

/-- A load oracle whose first insert raises. -/
def insertFailDriver : LoadDriver := ⟨okDriver, none, some 0⟩

/-- The per-file outcome used in the aggregate-run witness: file `1` of the
three files fails. -/
def fileOutcome : ℕ → Bool := fun n => n != 1

theorem strVal_cellOfOpt (x : Option String) : strVal (cellOfOpt x) = x := by
  cases x <;> rfl

theorem find?_split {α : Type} (p : α → Bool) :
    ∀ (l : List α) (a : α), l.find? p = some a →
      p a = true ∧ ∃ l₁ l₂, l = l₁ ++ a :: l₂ ∧ ∀ x ∈ l₁, p x = false := by
  intro l
  induction l with
  | nil => intro a h; simp [List.find?] at h
  | cons b l ih =>
    intro a h
    rw [List.find?] at h
    by_cases hb : p b
    · rw [hb] at h
      simp only [Option.some.injEq] at h
      subst h
      exact ⟨hb, [], l, rfl, by simp⟩
    · rw [Bool.eq_false_iff.mpr hb] at h
      obtain ⟨hpa, l₁, l₂, rfl, hl₁⟩ := ih a h
      refine ⟨hpa, b :: l₁, l₂, rfl, ?_⟩
      intro x hx
      rcases List.mem_cons.mp hx with rfl | hx
      · exact Bool.eq_false_iff.mpr hb
      · exact hl₁ x hx

theorem exec_ok_not_leaked (q : String) (d : Driver) :
    isOkB (execute_query_pyodbc q d).result = true →
      (execute_query_pyodbc q d).connLeaked = false := by
  obtain ⟨ce, ee, rc, rr⟩ := d
  cases ce with
  | some e => intro h; simp [execute_query_pyodbc, isOkB] at h
  | none =>
    cases ee with
    | some e => intro h; simp [execute_query_pyodbc, isOkB] at h
    | none =>
      intro _
      by_cases hs : isSelect q <;> simp [execute_query_pyodbc, hs]

theorem mem_prepare (df : DataFrame) (n₁ n₂ : ℕ) (row : PreparedRow)
    (h : row ∈ prepare_products_data df n₁ n₂) :
    ∃ c r, resolveCol .name df.headers = some c ∧ r ∈ df.rows ∧
      getCell df r c = some row.name := by
  unfold prepare_products_data at h
  cases hres : resolveCol .name df.headers with
  | none => rw [hres] at h; simp at h
  | some c =>
    rw [hres] at h
    by_cases hall : (df.rows.map (mapRow df)).all (fun m => m.name.isNone) = true
    · rw [if_pos hall] at h; simp at h
    · rw [if_neg hall] at h
      rw [List.mem_filterMap] at h
      obtain ⟨m, hm, hmap⟩ := h
      rw [List.mem_map] at hm
      obtain ⟨r, hr, rfl⟩ := hm
      cases hname : (mapRow df r).name with
      | none => rw [hname] at hmap; simp at hmap
      | some nm =>
        rw [hname] at hmap
        simp only [Option.map_some', Option.some.injEq] at hmap
        have hcell : (mapRow df r).name = getCell df r c := by
          simp [mapRow, mappedCell, hres, strVal_cellOfOpt]
        refine ⟨c, r, rfl, hr, ?_⟩
        rw [← hcell, hname, ← hmap]

theorem readCsv_cell_not_na (csv : Csv) (r : List (Option String)) (c v : String)
    (hr : r ∈ (readCsv csv).rows) (h : getCell (readCsv csv) r c = some v) :
    v ∉ naValues := by
  unfold getCell at h
  cases hidx : ((readCsv csv).headers.findIdx? (fun hd => hd == c)) with
  | none => rw [hidx] at h; simp at h
  | some i =>
    rw [hidx] at h
    have h' : (r.get? i).getD none = some v := h
    cases hg : r.get? i with
    | none => rw [hg] at h'; simp at h'
    | some cell =>
      rw [hg] at h'
      simp only [Option.getD_some] at h'
      subst h'
      have hmem : some v ∈ r := List.get?_mem hg
      unfold readCsv at hr
      simp only [List.mem_map] at hr
      obtain ⟨raw, _, rfl⟩ := hr
      rw [List.mem_map] at hmem
      obtain ⟨rawc, _, hpc⟩ := hmem
      unfold parseCell at hpc
      by_cases hna : rawc ∈ naValues
      · rw [if_pos hna] at hpc; simp at hpc
      · rw [if_neg hna] at hpc
        simp only [Option.some.injEq] at hpc
        rw [← hpc]
        exact hna

theorem prepare_name_not_na (csv : Csv) (n₁ n₂ : ℕ) (row : PreparedRow)
    (h : row ∈ prepare_products_data (readCsv csv) n₁ n₂) :
    row.name ∉ naValues := by
  obtain ⟨c, r, _, hr, hcell⟩ := mem_prepare _ _ _ _ h
  exact readCsv_cell_not_na _ _ _ _ hr hcell

theorem rowsInserted_mem (csv : Csv) (n₁ n₂ : ℕ) (ld : LoadDriver) (row : PreparedRow)
    (h : row ∈ (load_csv_to_products csv n₁ n₂ ld).rowsInserted) :
    row ∈ prepare_products_data (readCsv csv) n₁ n₂ := by
  simp only [load_csv_to_products] at h
  split at h
  · simp at h
  · split at h
    · simp at h
    · split at h
      · simp at h
      · split at h
        · split at h
          · exact List.mem_of_mem_take h
          · exact h
        · exact h

theorem widget_prepare_eq (n₁ n₂ : ℕ) :
    prepare_products_data (readCsv widgetCsv) n₁ n₂ =
      [⟨"Widget", some "", 25 / 2, some "", 0, n₁, n₂⟩] := by
  rw [show prepare_products_data (readCsv widgetCsv) n₁ n₂ =
      [⟨"Widget", some "", 1 * ((12 : ℚ) + 50 / 10 ^ 2) * 10 ^ 0, some "", 0, n₁, n₂⟩]
    from rfl]
  norm_num

theorem load_success_not_leaked (csv : Csv) (n₁ n₂ : ℕ) (ld : LoadDriver) :
    (load_csv_to_products csv n₁ n₂ ld).success = true →
    (load_csv_to_products csv n₁ n₂ ld).connLeaked = false := by
  have hctl : ∀ u, (create_table_if_not_exists ld.ctDriver).result = .ok u →
      (create_table_if_not_exists ld.ctDriver).connLeaked = false := by
    intro u hct
    apply exec_ok_not_leaked create_table_sql ld.ctDriver
    have h1 : (execute_query_pyodbc create_table_sql ld.ctDriver).result = .ok u := hct
    rw [h1]
    rfl
  simp only [load_csv_to_products]
  split
  · intro h
    exact absurd h (by simp)
  · cases hct : (create_table_if_not_exists ld.ctDriver).result with
    | error e => simp [hct]
    | ok u =>
      cases hce : ld.connectError with
      | some e => simp [hct, hce]
      | none =>
        cases hie : ld.insertErrorAt with
        | some i =>
          simp only [hct, hce, hie]
          split
          · intro h
            exact absurd h (by simp)
          · intro _
            exact hctl u hct
        | none =>
          simp only [hct, hce, hie]
          intro _
          exact hctl u hct

theorem countName_ne_zero_iff_any (n : String) (db : List Product) :
    countName n db ≠ 0 ↔ db.any (fun p => p.name == n) = true := by
  rw [countName, Ne, List.length_eq_zero, List.any_eq_true]
  constructor
  · intro h
    obtain ⟨p, hp⟩ := List.exists_mem_of_ne_nil _ h
    have := List.mem_filter.mp hp
    exact ⟨p, this.1, this.2⟩
  · rintro ⟨p, hp, hpn⟩ hnil
    have : p ∈ db.filter (fun p => p.name == n) := List.mem_filter.mpr ⟨hp, hpn⟩
    rw [hnil] at this
    simp at this

theorem foldl_count {α : Type} (f : α → Bool) :
    ∀ (l : List α) (n : ℕ),
      l.foldl (fun n x => if f x then n + 1 else n) n = n + (l.filter f).length := by
  intro l
  induction l with
  | nil => intro n; simp
  | cons a l ih =>
    intro n
    by_cases hf : f a
    · simp only [List.foldl_cons, if_pos hf, List.filter_cons, hf, ite_true, List.length_cons]
      rw [ih]
      omega
    · simp only [List.foldl_cons, if_neg hf, List.filter_cons, hf, ite_false]
      exact ih n

theorem length_filter_eq_iff {α : Type} (p : α → Bool) :
    ∀ l : List α, ((l.filter p).length = l.length ↔ ∀ a ∈ l, p a = true) := by
  intro l
  induction l with
  | nil => simp
  | cons a l ih =>
    rw [List.filter_cons]
    by_cases hp : p a
    · rw [if_pos hp, List.length_cons, List.length_cons]
      constructor
      · intro h x hx
        rcases List.mem_cons.mp hx with rfl | hx'
        · exact hp
        · exact (ih.mp (Nat.add_right_cancel h)) x hx'
      · intro h
        rw [ih.mpr fun x hx => h x (List.mem_cons_of_mem a hx)]
    · rw [if_neg hp, List.length_cons]
      constructor
      · intro h
        exact absurd h (by have := List.length_filter_le p l; omega)
      · intro h
        exact absurd (h a (List.mem_cons_self a l)) (by simp [hp])

/-- C1 (counterexample): `create_sample_data` does not guard each sample row
by its own name.  On a table holding one row named `Sample Product 2` (and no
`Sample Product 1`), seeding inserts the whole batch, duplicating the
existing `Sample Product 2` row — the claim's per-row guard is violated. -/
theorem create_sample_data_duplicates_existing_sample_name :
    countName "Sample Product 2"
      [⟨"Sample Product 2", "preexisting", 1, "Electronics", 1⟩] = 1 ∧
    countName "Sample Product 2"
      (create_sample_data
        [⟨"Sample Product 2", "preexisting", 1, "Electronics", 1⟩]) = 2 := by
  constructor <;> decide

/-- C1 (amended): the seed statement guards the whole five-row batch on the
absence of a row named `Sample Product 1` only: if such a row exists the
statement is a no-op, otherwise the five rows are appended; consequently
seeding twice in a row is idempotent (the second run changes nothing). -/
theorem create_sample_data_guarded_by_first_sample_name (db : List Product) :
    create_sample_data (create_sample_data db) = create_sample_data db ∧
    (countName "Sample Product 1" db ≠ 0 → create_sample_data db = db) ∧
    (countName "Sample Product 1" db = 0 →
      create_sample_data db = db ++ sampleRows) := by
  have hsamp : sampleRows.any (fun p => p.name == "Sample Product 1") = true := by decide
  by_cases h : db.any (fun p => p.name == "Sample Product 1") = true
  · refine ⟨?_, fun _ => ?_, fun h0 => ?_⟩
    · simp [create_sample_data, h]
    · simp [create_sample_data, h]
    · exact absurd h0 (by simpa using (countName_ne_zero_iff_any "Sample Product 1" db).mpr h)
  · have h' : db.any (fun p => p.name == "Sample Product 1") = false :=
      Bool.eq_false_iff.mpr h
    refine ⟨?_, fun hne => ?_, fun _ => ?_⟩
    · have happ : (db ++ sampleRows).any (fun p => p.name == "Sample Product 1") = true := by
        rw [List.any_append, hsamp, Bool.or_true]
      simp [create_sample_data, h', happ]
    · exact absurd ((countName_ne_zero_iff_any "Sample Product 1" db).mp hne)
        (by simp [h'])
    · simp [create_sample_data, h']

/-- C1 (witness): the amended theorem applied at two concrete table states:
the empty table (the batch is inserted, and a second seeding is a no-op) and
a table already holding the sample rows (seeding is a no-op). -/
theorem create_sample_data_guarded_witness :
    create_sample_data (create_sample_data []) = create_sample_data [] ∧
    create_sample_data sampleRows = sampleRows ∧
    create_sample_data [] = [] ++ sampleRows :=
  ⟨(create_sample_data_guarded_by_first_sample_name []).1,
   (create_sample_data_guarded_by_first_sample_name sampleRows).2.1 (by decide),
   (create_sample_data_guarded_by_first_sample_name []).2.2 (by decide)⟩

/-- C2 (counterexample): when `cursor.execute` raises, both the connection
manager and the loader propagate the failure with the opened connection never
closed, refuting the claimed guaranteed release on the error path. -/
theorem connection_left_open_on_driver_error :
    (execute_query_pyodbc "INSERT INTO products VALUES (1)" failDriver).connLeaked = true ∧
    isOkB (execute_query_pyodbc "INSERT INTO products VALUES (1)" failDriver).result = false ∧
    (load_csv_to_products widgetCsv 0 0 insertFailDriver).connLeaked = true ∧
    (load_csv_to_products widgetCsv 0 0 insertFailDriver).success = false := by
  refine ⟨by decide, by decide, by decide, by decide⟩

/-- C2 (amended): connections are explicitly closed on the success path of
`execute_query_pyodbc` and of `load_csv_to_products`; but when the driver
raises during statement execution the except clauses re-raise (or return
`False`) without closing, so the already-open connection is not released on
that error path. -/
theorem connection_closed_on_success_only (q : String) (d : Driver) (csv : Csv)
    (n₁ n₂ : ℕ) (ld : LoadDriver) :
    (isOkB (execute_query_pyodbc q d).result = true →
      (execute_query_pyodbc q d).connLeaked = false) ∧
    ((load_csv_to_products csv n₁ n₂ ld).success = true →
      (load_csv_to_products csv n₁ n₂ ld).connLeaked = false) ∧
    (d.connectError = none → d.executeError ≠ none →
      (execute_query_pyodbc q d).connLeaked = true) := by
  refine ⟨exec_ok_not_leaked q d, load_success_not_leaked csv n₁ n₂ ld, ?_⟩
  intro hc he
  obtain ⟨ce, ee, rc, rr⟩ := d
  cases ce with
  | some e => exact absurd hc (by simp)
  | none =>
    cases ee with
    | none => exact absurd rfl he
    | some e => rfl

/-- C2 (witness): the amended theorem at concrete runs: a successful read and
a successful file load close their connections, and a failing write leaves
its connection open. -/
theorem connection_closed_on_success_only_witness :
    (execute_query_pyodbc "SELECT 1" okDriver).connLeaked = false ∧
    (load_csv_to_products widgetCsv 0 0 okLoadDriver).connLeaked = false ∧
    (execute_query_pyodbc "SELECT 1" failDriver).connLeaked = true :=
  ⟨(connection_closed_on_success_only "SELECT 1" okDriver widgetCsv 0 0 okLoadDriver).1
      (by decide),
   (connection_closed_on_success_only "SELECT 1" okDriver widgetCsv 0 0 okLoadDriver).2.1
      (by decide),
   (connection_closed_on_success_only "SELECT 1" failDriver widgetCsv 0 0 okLoadDriver).2.2
      rfl (by decide)⟩

/-- C3: every record persisted by the loader has a non-empty name.  For any
CSV input, `prepare_products_data` drops every row whose mapped name reads as
missing (which, under `pd.read_csv`, includes empty cells), so no row that
reaches the insert loop of `load_csv_to_products` carries an empty or missing
name. -/
theorem prepared_rows_have_nonempty_name (csv : Csv) (n₁ n₂ : ℕ) (ld : LoadDriver)
    (row : PreparedRow) :
    (row ∈ prepare_products_data (readCsv csv) n₁ n₂ → row.name ≠ "") ∧
    (row ∈ (load_csv_to_products csv n₁ n₂ ld).rowsInserted → row.name ≠ "") := by
  have key : row ∈ prepare_products_data (readCsv csv) n₁ n₂ → row.name ≠ "" := by
    intro h he
    have hna := prepare_name_not_na csv n₁ n₂ row h
    rw [he] at hna
    exact hna (by decide)
  exact ⟨key, fun h => key (rowsInserted_mem csv n₁ n₂ ld row h)⟩

/-- C3 (witness): the theorem at the Widget CSV, whose single prepared row is
passed to the insert loop with the non-empty name `Widget`. -/
theorem prepared_rows_have_nonempty_name_witness :
    (⟨"Widget", some "", 25 / 2, some "", 0, 0, 0⟩ : PreparedRow).name ≠ "" ∧
    (⟨"Widget", some "", 25 / 2, some "", 0, 0, 0⟩ : PreparedRow).name = "Widget" :=
  ⟨(prepared_rows_have_nonempty_name widgetCsv 0 0 okLoadDriver _).2 (by
      rw [show (load_csv_to_products widgetCsv 0 0 okLoadDriver).rowsInserted =
          prepare_products_data (readCsv widgetCsv) 0 0 from rfl, widget_prepare_eq]
      exact List.mem_singleton_self _), rfl⟩

/-- C4: when no name-synonym column can be mapped, or when every row's mapped
name is missing, `prepare_products_data` returns the empty dataset (an
empty-result sentinel, not a raised exception — the embedding is a total
function), and `load_csv_to_products` detects the emptiness and returns a
plain failure without opening a connection or attempting an insert. -/
theorem empty_mapping_yields_empty_result_and_failure (csv : Csv) (n₁ n₂ : ℕ)
    (ld : LoadDriver)
    (h : resolveCol .name (readCsv csv).headers = none ∨
         ∀ r ∈ (readCsv csv).rows, strVal (mappedCell (readCsv csv) r .name) = none) :
    prepare_products_data (readCsv csv) n₁ n₂ = [] ∧
    load_csv_to_products csv n₁ n₂ ld = ⟨false, false, []⟩ := by
  have hprep : prepare_products_data (readCsv csv) n₁ n₂ = [] := by
    unfold prepare_products_data
    cases hres : resolveCol .name (readCsv csv).headers with
    | none => rfl
    | some c =>
      rcases h with hnone | hall
      · rw [hres] at hnone
        exact absurd hnone (by simp)
      · have : ((readCsv csv).rows.map (mapRow (readCsv csv))).all
            (fun m => m.name.isNone) = true := by
          rw [List.all_eq_true]
          intro m hm
          rw [List.mem_map] at hm
          obtain ⟨r, hr, rfl⟩ := hm
          have := hall r hr
          simp [mapRow, this]
        rw [if_pos this]
  refine ⟨hprep, ?_⟩
  simp only [load_csv_to_products, hprep]
  rfl

/-- C4 (witness): the theorem at a CSV with no recognizable name column. -/
theorem empty_mapping_yields_empty_result_and_failure_witness :
    prepare_products_data (readCsv noNameCsv) 0 0 = [] ∧
    load_csv_to_products noNameCsv 0 0 okLoadDriver = ⟨false, false, []⟩ :=
  empty_mapping_yields_empty_result_and_failure noNameCsv 0 0 okLoadDriver
    (Or.inl (by decide))

/-- C5: for each target field the mapper scans that field's synonym list in
priority order and binds the field to the first input column matching by
case-sensitive exact equality (every earlier synonym is absent from the
headers); when no synonym matches, the field is filled with the default:
`0.0` for price, `0` for stock_quantity, and the empty string otherwise. -/
theorem mapper_first_match_and_defaults (df : DataFrame) (r : List (Option String))
    (t : Target) :
    (∀ c, resolveCol t df.headers = some c →
        df.headers.contains c = true ∧
        (∃ pre post, synonyms t = pre ++ c :: post ∧
          ∀ s ∈ pre, df.headers.contains s = false) ∧
        mappedCell df r t = cellOfOpt (getCell df r c)) ∧
    ((∀ s ∈ synonyms t, df.headers.contains s = false) →
        mappedCell df r t = defaultFor t) ∧
    defaultFor .price = .num 0 ∧
    defaultFor .stock_quantity = .int 0 ∧
    defaultFor .name = .s "" ∧
    defaultFor .description = .s "" ∧
    defaultFor .category = .s "" := by
  refine ⟨?_, ?_, rfl, rfl, rfl, rfl, rfl⟩
  · intro c hc
    obtain ⟨hpc, pre, post, hsplit, hpre⟩ := find?_split _ _ _ hc
    exact ⟨hpc, ⟨pre, post, hsplit, hpre⟩, by rw [mappedCell, hc]⟩
  · intro hnone
    have : resolveCol t df.headers = none := by
      rw [resolveCol, List.find?_eq_none]
      intro s hs
      rw [hnone s hs]
      simp
    rw [mappedCell, this]

/-- C5 (witness): on headers `["Name", "cost", "qty"]` the price field binds
to `cost` (the first matching synonym, `price` itself being absent) while the
name field — whose synonyms do not match the differently-cased `Name` —
falls back to its empty-string default. -/
theorem mapper_first_match_and_defaults_witness :
    mappedCell ⟨["Name", "cost", "qty"], []⟩ [some "A", some "5", none] .price =
      cellOfOpt (getCell ⟨["Name", "cost", "qty"], []⟩ [some "A", some "5", none] "cost") ∧
    mappedCell ⟨["Name", "cost", "qty"], []⟩ [some "A", some "5", none] .name =
      defaultFor .name :=
  ⟨((mapper_first_match_and_defaults ⟨["Name", "cost", "qty"], []⟩
      [some "A", some "5", none] .price).1 "cost" (by decide)).2.2,
   (mapper_first_match_and_defaults ⟨["Name", "cost", "qty"], []⟩
      [some "A", some "5", none] .name).2.1 (by decide)⟩

/-- C6: an unparsable price cell is coerced to exactly `0`, a parsable one to
its parsed value, and an unparsable stock cell to exactly `0`; the CSV with
columns `[product_name, cost, qty]` and row `["Widget", "12.50", "abc"]`
prepares to the single record with name `Widget`, price `12.50` and stock
quantity `0`. -/
theorem numeric_coercion_defaults :
    (∀ s : String, parseNum s = none → cleanPrice (.s s) = 0) ∧
    (∀ (s : String) (q : ℚ), parseNum s = some q → cleanPrice (.s s) = q) ∧
    (∀ s : String, parseNum s = none → cleanStock (.s s) = 0) ∧
    prepare_products_data (readCsv widgetCsv) 0 0 =
      [⟨"Widget", some "", 25 / 2, some "", 0, 0, 0⟩] := by
  refine ⟨?_, ?_, ?_, widget_prepare_eq 0 0⟩
  · intro s h
    simp [cleanPrice, h]
  · intro s q h
    simp [cleanPrice, h]
  · intro s h
    simp [cleanStock, h]

/-- C6 (witness): the coercion clauses at the scenario's concrete cells:
`abc` is unparsable (price `0`, stock `0`), `12.50` parses to `25/2`. -/
theorem numeric_coercion_defaults_witness :
    cleanPrice (.s "abc") = 0 ∧
    cleanPrice (.s "12.50") = 25 / 2 ∧
    cleanStock (.s "abc") = 0 :=
  ⟨numeric_coercion_defaults.1 "abc" (by decide),
   numeric_coercion_defaults.2.1 "12.50" (25 / 2) (by
      rw [show parseNum "12.50" = some (1 * ((12 : ℚ) + 50 / 10 ^ 2) * 10 ^ 0) from rfl]
      norm_num),
   numeric_coercion_defaults.2.2.1 "abc" (by decide)⟩

/-- C7: for every non-empty file list, `load_all_csv_files` processes each
file independently in order — the success count equals the number of
succeeding files among all of them, so one failure does not halt the rest —
and the run reports overall success exactly when every file succeeded. -/
theorem load_all_aggregates_per_file_outcomes {α : Type} (files : List α)
    (loadFile : α → Bool) (h : files ≠ []) :
    successCount files loadFile = (files.filter loadFile).length ∧
    (load_all_csv_files files loadFile = true ↔ ∀ f ∈ files, loadFile f = true) := by
  have hc : successCount files loadFile = (files.filter loadFile).length := by
    rw [successCount, foldl_count loadFile files 0, Nat.zero_add]
  refine ⟨hc, ?_⟩
  have hne : files.isEmpty = false := by
    cases files with
    | nil => exact absurd rfl h
    | cons a l => rfl
  rw [load_all_csv_files, hne]
  simp only [Bool.false_eq_true, if_false, hc, beq_iff_eq]
  exact length_filter_eq_iff loadFile files

/-- C7 (witness): the theorem at a directory of 3 files of which the second
fails: the run reports 2 of 3 succeeded and overall status failed. -/
theorem load_all_aggregates_per_file_outcomes_witness :
    successCount [0, 1, 2] fileOutcome = 2 ∧
    load_all_csv_files [0, 1, 2] fileOutcome = false ∧
    (load_all_csv_files [0, 1, 2] fileOutcome = true ↔
      ∀ f ∈ [0, 1, 2], fileOutcome f = true) :=
  ⟨by decide, by decide,
   (load_all_aggregates_per_file_outcomes [0, 1, 2] fileOutcome (by decide)).2⟩

/-- C8: `execute_query_pyodbc`, on a connection where the driver raises no
error, returns the fetched tabular result (ordered rows under named columns)
when the query text, stripped and uppercased, starts with `SELECT`, and
otherwise executes the statement, commits, and returns `True`. -/
theorem execute_query_read_vs_write (q : String) (d : Driver)
    (hc : d.connectError = none) (he : d.executeError = none) :
    (isSelect q = true →
      (execute_query_pyodbc q d).result = .ok (.table d.resultCols d.resultRows)) ∧
    (isSelect q = false →
      (execute_query_pyodbc q d).result = .ok .success ∧
      (execute_query_pyodbc q d).committed = true) := by
  obtain ⟨ce, ee, rc, rr⟩ := d
  simp only at hc he
  subst hc
  subst he
  constructor
  · intro hs
    simp [execute_query_pyodbc, hs]
  · intro hs
    simp [execute_query_pyodbc, hs]

/-- C8 (witness): the theorem at a read and at a write on a clean driver. -/
theorem execute_query_read_vs_write_witness :
    (execute_query_pyodbc "SELECT * FROM products" okDriver).result =
      .ok (.table okDriver.resultCols okDriver.resultRows) ∧
    (execute_query_pyodbc "UPDATE products SET stock_quantity = 0" okDriver).result =
      .ok .success ∧
    (execute_query_pyodbc "UPDATE products SET stock_quantity = 0" okDriver).committed =
      true :=
  ⟨(execute_query_read_vs_write "SELECT * FROM products" okDriver rfl rfl).1 (by decide),
   (execute_query_read_vs_write "UPDATE products SET stock_quantity = 0" okDriver
      rfl rfl).2 (by decide)⟩

/-- C9 (counterexample): on a failing write the connection manager propagates
the raw driver error unchanged — it is not re-signalled as a wrapped
`QueryExecutionError` carrying operation context, refuting the claimed
wrapping. -/
theorem raw_driver_error_not_wrapped :
    (execute_query_pyodbc "DELETE FROM products" failDriver).result =
      .error (.pyodbcError "constraint violation") ∧
    isWrapped (execute_query_pyodbc "DELETE FROM products" failDriver).result = false := by
  exact ⟨by decide, by decide⟩

/-- C9 (amended): when `cursor.execute` raises, the `except pyodbc.Error`
clause at the connection-manager boundary catches the error, logs it, and
re-raises the same raw driver error unchanged; no wrapping into a
`QueryExecutionError` occurs. -/
theorem driver_error_reraised_unchanged (q : String) (d : Driver) (e : String)
    (hc : d.connectError = none) (he : d.executeError = some e) :
    (execute_query_pyodbc q d).result = .error (.pyodbcError e) ∧
    isWrapped (execute_query_pyodbc q d).result = false := by
  obtain ⟨ce, ee, rc, rr⟩ := d
  simp only at hc he
  subst hc
  subst he
  exact ⟨rfl, rfl⟩

/-- C9 (witness): the amended theorem at a concrete failing statement. -/
theorem driver_error_reraised_unchanged_witness :
    (execute_query_pyodbc "SELECT 1" ⟨none, some "deadlock victim", [], []⟩).result =
      .error (.pyodbcError "deadlock victim") ∧
    isWrapped (execute_query_pyodbc "SELECT 1"
      ⟨none, some "deadlock victim", [], []⟩).result = false :=
  driver_error_reraised_unchanged "SELECT 1" ⟨none, some "deadlock victim", [], []⟩
    "deadlock victim" rfl rfl

/-- C10: with zero discovered CSV files, `load_all_csv_files` returns `False`
(the aggregate run reports failure), not a vacuous success. -/
theorem load_all_empty_directory_fails (loadFile : ℕ → Bool) :
    load_all_csv_files ([] : List ℕ) loadFile = false := rfl

end Hydrate
